import Mathlib

/-!
Shallow embedding of `src/eckey.c` (EC key handling for an SGX-style ECDHE
remote-attestation sample, built on OpenSSL).

Modelling conventions:
* The process-wide globals `error_type` and `ep` (lines 9-15) form an
  `ErrorState` threaded explicitly through every operation.
* OpenSSL objects (BIGNUM, EC_KEY, EVP_PKEY, EVP_PKEY_CTX, OPENSSL_malloc
  buffers) and FILE handles are tracked by per-class live-object counters in a
  `Heap`; every allocation increments and every free decrements the matching
  counter, placed exactly where the source allocates or frees.
* Library calls that can fail only for environmental reasons (allocation,
  keygen, derivation) take their success or failure from an oracle record; the
  calls with semantic failure conditions are modelled by those conditions:
  `EC_KEY_set_public_key_affine_coordinates` succeeds exactly when the decoded
  point satisfies the P-256 curve equation, and `EVP_PKEY_get1_EC_KEY`
  succeeds exactly when the PEM file parsed to an EC key.
* `EVP_PKEY_derive` on a P-256 ECDH context reports the fixed secret length
  32 = (field size)/8 on its length-query call, and on success fills the
  buffer with library-produced bytes (oracle entropy padded to that length).
* The C `errno` is a `Nat` threaded alongside, set by a failing `fopen` and
  read by `perror` inside `key_perror` at report time.
-/

/-- The three error kinds of the static `enum _error_type` (eckey.c lines 9-13). -/
inductive ErrorType
  | e_none
  | e_crypto
  | e_system
deriving DecidableEq, Repr

/-- The process-wide error record: `error_type` (line 13) and the context
string `ep` (line 15). -/
structure ErrorState where
  error_type : ErrorType
  ep : Option String
deriving DecidableEq, Repr

/-- Live-object counters for each class of library resource. -/
structure Heap where
  bn : Nat        -- BIGNUM objects
  ecKey : Nat     -- EC_KEY objects
  evpPkey : Nat   -- EVP_PKEY objects
  ctx : Nat       -- EVP_PKEY_CTX objects
  buf : Nat       -- OPENSSL_malloc buffers
  file : Nat      -- open FILE handles
deriving DecidableEq, Repr

def Heap.allocBN (h : Heap) : Heap := { h with bn := h.bn + 1 }
def Heap.freeBN (h : Heap) : Heap := { h with bn := h.bn - 1 }
def Heap.allocEcKey (h : Heap) : Heap := { h with ecKey := h.ecKey + 1 }
def Heap.freeEcKey (h : Heap) : Heap := { h with ecKey := h.ecKey - 1 }
def Heap.allocEvpPkey (h : Heap) : Heap := { h with evpPkey := h.evpPkey + 1 }
def Heap.freeEvpPkey (h : Heap) : Heap := { h with evpPkey := h.evpPkey - 1 }
def Heap.allocCtx (h : Heap) : Heap := { h with ctx := h.ctx + 1 }
def Heap.freeCtx (h : Heap) : Heap := { h with ctx := h.ctx - 1 }
def Heap.allocBuf (h : Heap) : Heap := { h with buf := h.buf + 1 }
def Heap.freeBuf (h : Heap) : Heap := { h with buf := h.buf - 1 }
def Heap.openFile (h : Heap) : Heap := { h with file := h.file + 1 }
def Heap.closeFile (h : Heap) : Heap := { h with file := h.file - 1 }

/-- The empty heap. -/
def Heap.init : Heap := ⟨0, 0, 0, 0, 0, 0⟩

/-- Value of a byte buffer decoded as a little-endian unsigned integer, the
semantics of OpenSSL `BN_lebin2bn` (first byte least significant). -/
def bn_lebin2bn : List Nat → Nat
  | [] => 0
  | b :: t => b + 256 * bn_lebin2bn t

/-- Little-endian encoding of `n` into `len` bytes (the wire format the spec
describes for coordinate buffers). -/
def leEncode (n : Nat) : Nat → List Nat
  | 0 => []
  | len + 1 => (n % 256) :: leEncode (n / 256) len

theorem leEncode_length (n len : Nat) : (leEncode n len).length = len := by
  induction len generalizing n with
  | zero => rfl
  | succ k ih => simp [leEncode, ih]

theorem bn_lebin2bn_leEncode (len n : Nat) (h : n < 256 ^ len) :
    bn_lebin2bn (leEncode n len) = n := by
  induction len generalizing n with
  | zero =>
    interval_cases n
    rfl
  | succ k ih =>
    have hdiv : n / 256 < 256 ^ k := by
      rw [Nat.div_lt_iff_lt_mul (by norm_num)]
      calc n < 256 ^ (k + 1) := h
        _ = 256 ^ k * 256 := by ring
    simp [leEncode, bn_lebin2bn, ih (n / 256) hdiv]
    omega

/-- The NID OpenSSL assigns to curve P-256 (secp256r1 / prime256v1). -/
def NID_X9_62_prime256v1 : Nat := 415

/-- The P-256 field prime. -/
def p256_p : Nat :=
  0xffffffff00000001000000000000000000000000ffffffffffffffffffffffff

/-- The P-256 curve coefficient `a = p - 3`. -/
def p256_a : Nat := p256_p - 3

/-- The P-256 curve coefficient `b`. -/
def p256_b : Nat :=
  0x5ac635d8aa3a93e7b3ebbd55769886bc651d06b0cc53b0f63bce3c3e27d2604b

/-- The on-curve test OpenSSL performs inside
`EC_KEY_set_public_key_affine_coordinates`: both coordinates reduced and the
affine equation satisfied modulo the field prime. -/
def onCurveP256 (x y : Nat) : Bool :=
  decide (x < p256_p) && decide (y < p256_p) &&
  decide (y * y % p256_p = (x * x * x + p256_a * x + p256_b) % p256_p)

/-- An EC_KEY object: the curve it is bound to and its public point when one
has been set. -/
structure EcKeyObj where
  curve : Nat
  pub : Option (Nat × Nat)
deriving DecidableEq, Repr

/-- The `sgx_ec256_public_t` wire structure: two 32-byte coordinate buffers,
little-endian. -/
structure SgxEc256Public where
  gx : List Nat
  gy : List Nat
deriving DecidableEq, Repr

/-- Environmental outcomes of the allocating library calls inside
`key_from_sgx_ec256`: the two `BN_lebin2bn` calls and
`EC_KEY_new_by_curve_name`. -/
structure FromSgxOracle where
  bnGxOk : Bool
  bnGyOk : Bool
  ecNewOk : Bool
deriving DecidableEq, Repr

/-- The all-successful allocation oracle for `key_from_sgx_ec256`. -/
def FromSgxOracle.allOk : FromSgxOracle := ⟨true, true, true⟩

/-- Result of `key_from_sgx_ec256`: the returned key handle (NULL = `none`),
the final error state, how many times `error_type` was written after the
entry reset, and the final heap. -/
structure FromSgxResult where
  ret : Option EcKeyObj
  state : ErrorState
  kindWrites : Nat
  heap : Heap
deriving DecidableEq, Repr

/-- Embedding of `key_from_sgx_ec256` (eckey.c lines 45-85), line by line:
reset `error_type`; decode `gx` then `gy` with `BN_lebin2bn` (failure =>
`e_crypto`, goto cleanup); create a P-256 EC_KEY (failure => `e_crypto`);
set the affine public point, which fails exactly when the decoded point is
off-curve (then the key is freed and `e_crypto` set); the cleanup label frees
whichever BIGNUMs are non-NULL. -/
def key_from_sgx_ec256 (k : SgxEc256Public) (o : FromSgxOracle)
    (s0 : ErrorState) (h0 : Heap) : FromSgxResult :=
  let s := { s0 with error_type := ErrorType.e_none }     -- line 49
  if o.bnGxOk = false then
    -- gx = NULL: cleanup frees nothing (gy, gx both NULL)
    { ret := none, state := { s with error_type := ErrorType.e_crypto },
      kindWrites := 1, heap := h0 }
  else
  let h1 := h0.allocBN                                    -- gx allocated
  if o.bnGyOk = false then
    -- cleanup: gy NULL, gx freed
    { ret := none, state := { s with error_type := ErrorType.e_crypto },
      kindWrites := 1, heap := h1.freeBN }
  else
  let h2 := h1.allocBN                                    -- gy allocated
  if o.ecNewOk = false then
    -- cleanup: gy freed, gx freed
    { ret := none, state := { s with error_type := ErrorType.e_crypto },
      kindWrites := 1, heap := h2.freeBN.freeBN }
  else
  let h3 := h2.allocEcKey                                 -- key allocated
  if onCurveP256 (bn_lebin2bn k.gx) (bn_lebin2bn k.gy) = false then
    -- EC_KEY_free(key); key = NULL; cleanup frees gy, gx   (lines 72-77)
    { ret := none, state := { s with error_type := ErrorType.e_crypto },
      kindWrites := 1, heap := h3.freeEcKey.freeBN.freeBN }
  else
    -- success: cleanup frees gy, gx; the key is returned to the caller
    { ret := some { curve := NID_X9_62_prime256v1,
                    pub := some (bn_lebin2bn k.gx, bn_lebin2bn k.gy) },
      state := s, kindWrites := 0, heap := h3.freeBN.freeBN }

/-- What `PEM_read_PrivateKey` produced from the opened file: nothing
parseable, a non-EC private key, or an EC private key on some curve. -/
inductive PemContent
  | noKey
  | nonEcKey
  | ecKey (curve : Nat)
deriving DecidableEq, Repr

/-- Environmental outcomes for `key_load_file`: whether `fopen` succeeds, the
`errno` a failing `fopen` leaves behind, and what the PEM parse yields. -/
structure LoadOracle where
  openOk : Bool
  errnoOnFail : Nat
  content : PemContent
deriving DecidableEq, Repr

/-- Result of `key_load_file`: the C return value (1 = success, 0 = failure),
the EC_KEY written through `*eckey` (when any), the final error state, the
number of `error_type` writes after the entry reset, the final heap, and the
process `errno` after the call. -/
structure LoadResult where
  ret : Nat
  eckey : Option EcKeyObj
  state : ErrorState
  kindWrites : Nat
  heap : Heap
  errno : Nat
deriving DecidableEq, Repr

/-- Embedding of `key_load_file` (eckey.c lines 19-43): reset `error_type`;
`EVP_PKEY_new()` allocates the generic key object; a failing `fopen` sets
`e_system`, stores the filename in `ep`, sets `errno`, and returns 0 (the
EVP_PKEY stays allocated, exactly as in the source, and no FILE was opened);
otherwise the file is parsed and closed, and `EVP_PKEY_get1_EC_KEY` hands
back a new EC_KEY reference when the parse produced an EC key — of whatever
curve the PEM encoded, with no curve check — else `e_crypto` and 0. -/
def key_load_file (filename : String) (o : LoadOracle)
    (s0 : ErrorState) (h0 : Heap) (errno0 : Nat) : LoadResult :=
  let s := { s0 with error_type := ErrorType.e_none }       -- line 24
  let h := h0.allocEvpPkey                                  -- line 26
  if o.openOk = false then
    { ret := 0, eckey := none,
      state := { s with error_type := ErrorType.e_system, ep := some filename },
      kindWrites := 1, heap := h, errno := o.errnoOnFail }  -- lines 28-31
  else
  let h := h.openFile                                       -- fopen succeeded
  let h := h.closeFile                                      -- line 34: fclose
  match o.content with
  | PemContent.ecKey c =>
    -- EVP_PKEY_get1_EC_KEY returns a fresh reference, curve taken from the file
    { ret := 1, eckey := some { curve := c, pub := none },
      state := s, kindWrites := 0, heap := h.allocEcKey, errno := errno0 }
  | _ =>
    { ret := 0, eckey := none,
      state := { s with error_type := ErrorType.e_crypto },
      kindWrites := 1, heap := h, errno := errno0 }         -- lines 37-40

/-- Rendering of the C library `strerror` for the current `errno`, as
`perror` uses it. The exact text is immaterial; what matters is that it is a
function of the errno value at the time `perror` runs. -/
def strerror (e : Nat) : String := "system error " ++ toString e

/-- Stand-in for the text `ERR_print_errors_fp` emits. -/
def cryptoErrDump : String := "crypto error queue"

/-- Embedding of `key_perror` (eckey.c lines 210-216): prints the caller
prefix, then either "no error", or `perror(ep)` — which renders the STORED
context string against the CURRENT errno — or the crypto error queue. -/
def key_perror (pfx : String) (s : ErrorState) (errnoNow : Nat) : String :=
  pfx ++ ": " ++
  (match s.error_type with
   | ErrorType.e_none => "no error"
   | ErrorType.e_system =>
     (match s.ep with
      | some f => f ++ ": " ++ strerror errnoNow
      | none => strerror errnoNow)
   | ErrorType.e_crypto => cryptoErrDump)

/-- Environmental outcomes of the fifteen fallible library calls inside
`key_shared_secret`, in source order, plus the entropy behind the bytes the
final `EVP_PKEY_derive` writes. -/
structure DeriveOracle where
  pctxOk : Bool          -- EVP_PKEY_CTX_new_id
  paramgenInitOk : Bool  -- EVP_PKEY_paramgen_init
  setCurveOk : Bool      -- EVP_PKEY_CTX_set_ec_paramgen_curve_nid
  paramgenOk : Bool      -- EVP_PKEY_paramgen
  kctxOk : Bool          -- EVP_PKEY_CTX_new(params)
  keygenInitOk : Bool    -- EVP_PKEY_keygen_init
  keygenOk : Bool        -- EVP_PKEY_keygen
  gaNewOk : Bool         -- EVP_PKEY_new
  set1Ok : Bool          -- EVP_PKEY_set1_EC_KEY
  sctxOk : Bool          -- EVP_PKEY_CTX_new(key)
  deriveInitOk : Bool    -- EVP_PKEY_derive_init
  setPeerOk : Bool       -- EVP_PKEY_derive_set_peer
  deriveLenOk : Bool     -- EVP_PKEY_derive(sctx, NULL, slen)
  mallocOk : Bool        -- OPENSSL_malloc
  deriveOk : Bool        -- EVP_PKEY_derive(sctx, secret, slen)
  secretBytes : List Nat
deriving DecidableEq, Repr

/-- The all-successful derivation oracle (with a given entropy stream). -/
def DeriveOracle.allOk (bs : List Nat) : DeriveOracle :=
  ⟨true, true, true, true, true, true, true, true, true, true, true, true,
   true, true, true, bs⟩

/-- The shared-secret length the ECDH derive primitive reports for P-256:
the field size in bytes. -/
def p256_secret_len : Nat := 32

/-- The bytes the final `EVP_PKEY_derive` writes on success: library-produced
content of exactly the queried P-256 length. -/
def derivedSecret (o : DeriveOracle) : List Nat :=
  (o.secretBytes ++ List.replicate p256_secret_len 0).take p256_secret_len

theorem derivedSecret_length (o : DeriveOracle) :
    (derivedSecret o).length = p256_secret_len := by
  simp [derivedSecret]

/-- The cleanup label of `key_shared_secret` (eckey.c lines 197-203): free
`sctx`, `g_a`, `key`, `kctx`, `params`, `pctx`, each when non-NULL; the flag
for each records whether the corresponding local is non-NULL on arrival. -/
def deriveCleanup (sctx gA key kctx params pctx : Bool) (h : Heap) : Heap :=
  let h := if sctx then h.freeCtx else h
  let h := if gA then h.freeEvpPkey else h
  let h := if key then h.freeEvpPkey else h
  let h := if kctx then h.freeCtx else h
  let h := if params then h.freeEvpPkey else h
  if pctx then h.freeCtx else h

/-- Result of `key_shared_secret`: the returned buffer (NULL = `none`), the
final `*slen`, the final error state, the number of `error_type` writes after
the entry reset, and the final heap. -/
structure DeriveResult where
  ret : Option (List Nat)
  slen : Nat
  state : ErrorState
  kindWrites : Nat
  heap : Heap
deriving DecidableEq, Repr

/-- Embedding of `key_shared_secret` (eckey.c lines 89-206): `*slen = 0` and
`error_type = e_none` at entry; then the linear sequence of library calls,
each failure setting `e_crypto` and jumping to the cleanup label; the length
query sets `*slen` to the P-256 secret length; a failing final derive frees
the secret buffer and returns NULL; cleanup frees every non-NULL
intermediate object. The peer key `ec_g_a` is input-only. -/
def key_shared_secret (ec_g_a : EcKeyObj) (o : DeriveOracle)
    (s0 : ErrorState) (h0 : Heap) : DeriveResult :=
  let s := { s0 with error_type := ErrorType.e_none }       -- line 100
  let sc := { s with error_type := ErrorType.e_crypto }
  if o.pctxOk = false then
    { ret := none, slen := 0, state := sc, kindWrites := 1,
      heap := deriveCleanup false false false false false false h0 }
  else
  let h1 := h0.allocCtx                                     -- pctx
  if o.paramgenInitOk = false then
    { ret := none, slen := 0, state := sc, kindWrites := 1,
      heap := deriveCleanup false false false false false true h1 }
  else
  if o.setCurveOk = false then
    { ret := none, slen := 0, state := sc, kindWrites := 1,
      heap := deriveCleanup false false false false false true h1 }
  else
  if o.paramgenOk = false then
    { ret := none, slen := 0, state := sc, kindWrites := 1,
      heap := deriveCleanup false false false false false true h1 }
  else
  let h2 := h1.allocEvpPkey                                 -- params
  if o.kctxOk = false then
    { ret := none, slen := 0, state := sc, kindWrites := 1,
      heap := deriveCleanup false false false false true true h2 }
  else
  let h3 := h2.allocCtx                                     -- kctx
  if o.keygenInitOk = false then
    { ret := none, slen := 0, state := sc, kindWrites := 1,
      heap := deriveCleanup false false false true true true h3 }
  else
  if o.keygenOk = false then
    { ret := none, slen := 0, state := sc, kindWrites := 1,
      heap := deriveCleanup false false false true true true h3 }
  else
  let h4 := h3.allocEvpPkey                                 -- key (ephemeral)
  if o.gaNewOk = false then
    { ret := none, slen := 0, state := sc, kindWrites := 1,
      heap := deriveCleanup false false true true true true h4 }
  else
  let h5 := h4.allocEvpPkey                                 -- g_a
  if o.set1Ok = false then
    { ret := none, slen := 0, state := sc, kindWrites := 1,
      heap := deriveCleanup false true true true true true h5 }
  else
  if o.sctxOk = false then
    { ret := none, slen := 0, state := sc, kindWrites := 1,
      heap := deriveCleanup false true true true true true h5 }
  else
  let h6 := h5.allocCtx                                     -- sctx
  if o.deriveInitOk = false then
    { ret := none, slen := 0, state := sc, kindWrites := 1,
      heap := deriveCleanup true true true true true true h6 }
  else
  if o.setPeerOk = false then
    { ret := none, slen := 0, state := sc, kindWrites := 1,
      heap := deriveCleanup true true true true true true h6 }
  else
  if o.deriveLenOk = false then
    { ret := none, slen := 0, state := sc, kindWrites := 1,
      heap := deriveCleanup true true true true true true h6 }
  else
  -- line 178 succeeded: *slen now holds the queried length
  if o.mallocOk = false then
    { ret := none, slen := p256_secret_len, state := sc, kindWrites := 1,
      heap := deriveCleanup true true true true true true h6 }
  else
  let h7 := h6.allocBuf                                     -- secret
  if o.deriveOk = false then
    -- OPENSSL_free(secret); secret = NULL                    (lines 192-194)
    { ret := none, slen := p256_secret_len, state := sc, kindWrites := 1,
      heap := deriveCleanup true true true true true true h7.freeBuf }
  else
    { ret := some (derivedSecret o), slen := p256_secret_len, state := s,
      kindWrites := 0,
      heap := deriveCleanup true true true true true true h7 }

/-- All thirteen library calls up to and including the length-query
`EVP_PKEY_derive(sctx, NULL, slen)` succeed. -/
def DeriveOracle.lenQueryReached (o : DeriveOracle) : Bool :=
  o.pctxOk && o.paramgenInitOk && o.setCurveOk && o.paramgenOk &&
  o.kctxOk && o.keygenInitOk && o.keygenOk && o.gaNewOk && o.set1Ok &&
  o.sctxOk && o.deriveInitOk && o.setPeerOk && o.deriveLenOk

/-- Every fallible call inside `key_shared_secret` succeeds. -/
def DeriveOracle.allCallsOk (o : DeriveOracle) : Bool :=
  o.lenQueryReached && o.mallocOk && o.deriveOk

/-- Full characterization of `key_shared_secret`: the context string is never
touched; the call returns the derived secret exactly when every library call
succeeds, in which case no error is recorded and exactly the secret buffer
stays allocated; on any failure `e_crypto` is recorded once and the heap is
restored; `*slen` is the queried length exactly when the length query was
reached and succeeded, else the `0` written at entry. -/
theorem kss_spec (peer : EcKeyObj) (o : DeriveOracle)
    (s0 : ErrorState) (h0 : Heap) :
    (key_shared_secret peer o s0 h0).state.ep = s0.ep ∧
    (key_shared_secret peer o s0 h0).ret =
      (if o.allCallsOk = true then some (derivedSecret o) else none) ∧
    (key_shared_secret peer o s0 h0).kindWrites =
      (if o.allCallsOk = true then 0 else 1) ∧
    (key_shared_secret peer o s0 h0).state.error_type =
      (if o.allCallsOk = true then ErrorType.e_none else ErrorType.e_crypto) ∧
    (key_shared_secret peer o s0 h0).heap =
      (if o.allCallsOk = true then h0.allocBuf else h0) ∧
    (key_shared_secret peer o s0 h0).slen =
      (if o.lenQueryReached = true then p256_secret_len else 0) := by
  obtain ⟨p1, p2, p3, p4, p5, p6, p7, p8, p9, p10, p11, p12, p13, p14, p15, sb⟩ := o
  cases p1
  · simp [key_shared_secret, deriveCleanup, DeriveOracle.allCallsOk,
      DeriveOracle.lenQueryReached]
  · cases p2
    · simp [key_shared_secret, deriveCleanup, DeriveOracle.allCallsOk,
        DeriveOracle.lenQueryReached, Heap.allocCtx, Heap.freeCtx]
    · cases p3
      · simp [key_shared_secret, deriveCleanup, DeriveOracle.allCallsOk,
          DeriveOracle.lenQueryReached, Heap.allocCtx, Heap.freeCtx]
      · cases p4
        · simp [key_shared_secret, deriveCleanup, DeriveOracle.allCallsOk,
            DeriveOracle.lenQueryReached, Heap.allocCtx, Heap.freeCtx]
        · cases p5
          · simp [key_shared_secret, deriveCleanup, DeriveOracle.allCallsOk,
              DeriveOracle.lenQueryReached, Heap.allocCtx, Heap.freeCtx,
              Heap.allocEvpPkey, Heap.freeEvpPkey]
          · cases p6
            · simp [key_shared_secret, deriveCleanup, DeriveOracle.allCallsOk,
                DeriveOracle.lenQueryReached, Heap.allocCtx, Heap.freeCtx,
                Heap.allocEvpPkey, Heap.freeEvpPkey]
            · cases p7
              · simp [key_shared_secret, deriveCleanup, DeriveOracle.allCallsOk,
                  DeriveOracle.lenQueryReached, Heap.allocCtx, Heap.freeCtx,
                  Heap.allocEvpPkey, Heap.freeEvpPkey]
              · cases p8
                · simp [key_shared_secret, deriveCleanup, DeriveOracle.allCallsOk,
                    DeriveOracle.lenQueryReached, Heap.allocCtx, Heap.freeCtx,
                    Heap.allocEvpPkey, Heap.freeEvpPkey]
                · cases p9
                  · simp [key_shared_secret, deriveCleanup, DeriveOracle.allCallsOk,
                      DeriveOracle.lenQueryReached, Heap.allocCtx, Heap.freeCtx,
                      Heap.allocEvpPkey, Heap.freeEvpPkey]
                  · cases p10
                    · simp [key_shared_secret, deriveCleanup, DeriveOracle.allCallsOk,
                        DeriveOracle.lenQueryReached, Heap.allocCtx, Heap.freeCtx,
                        Heap.allocEvpPkey, Heap.freeEvpPkey]
                    · cases p11
                      · simp [key_shared_secret, deriveCleanup, DeriveOracle.allCallsOk,
                          DeriveOracle.lenQueryReached, Heap.allocCtx, Heap.freeCtx,
                          Heap.allocEvpPkey, Heap.freeEvpPkey]
                      · cases p12
                        · simp [key_shared_secret, deriveCleanup, DeriveOracle.allCallsOk,
                            DeriveOracle.lenQueryReached, Heap.allocCtx, Heap.freeCtx,
                            Heap.allocEvpPkey, Heap.freeEvpPkey]
                        · cases p13
                          · simp [key_shared_secret, deriveCleanup, DeriveOracle.allCallsOk,
                              DeriveOracle.lenQueryReached, Heap.allocCtx, Heap.freeCtx,
                              Heap.allocEvpPkey, Heap.freeEvpPkey]
                          · cases p14
                            · simp [key_shared_secret, deriveCleanup, DeriveOracle.allCallsOk,
                                DeriveOracle.lenQueryReached, Heap.allocCtx, Heap.freeCtx,
                                Heap.allocEvpPkey, Heap.freeEvpPkey]
                            · cases p15
                              · simp [key_shared_secret, deriveCleanup, DeriveOracle.allCallsOk,
                                  DeriveOracle.lenQueryReached, Heap.allocCtx, Heap.freeCtx,
                                  Heap.allocEvpPkey, Heap.freeEvpPkey, Heap.allocBuf, Heap.freeBuf]
                              · simp [key_shared_secret, deriveCleanup, DeriveOracle.allCallsOk,
                                  DeriveOracle.lenQueryReached, Heap.allocCtx, Heap.freeCtx,
                                  Heap.allocEvpPkey, Heap.freeEvpPkey, Heap.allocBuf, Heap.freeBuf]

/-- The x coordinate of the P-256 base point, a convenient known-valid
public point. -/
def p256_gx : Nat :=
  0x6b17d1f2e12c4247f8bce6e563a440f277037d812deb33a0f4a13945d898c296

/-- The y coordinate of the P-256 base point. -/
def p256_gy : Nat :=
  0x4fe342e2fe1a7f9b8ee7eb4a7c0f9e162bce33576b315ececbb6406837bf51f5

/-- C1: for every 32-byte coordinate pair whose decoded point does not
satisfy the P-256 curve equation, `key_from_sgx_ec256` returns no key handle,
sets the error kind to cryptographic, and leaves the heap exactly as it found
it — every partially constructed object, the EC_KEY included, is released. -/
theorem key_from_sgx_ec256_offcurve_rejects (k : SgxEc256Public)
    (o : FromSgxOracle) (s0 : ErrorState) (h0 : Heap)
    (hlx : k.gx.length = 32) (hly : k.gy.length = 32)
    (hoff : onCurveP256 (bn_lebin2bn k.gx) (bn_lebin2bn k.gy) = false) :
    (key_from_sgx_ec256 k o s0 h0).ret = none ∧
    (key_from_sgx_ec256 k o s0 h0).state.error_type = ErrorType.e_crypto ∧
    (key_from_sgx_ec256 k o s0 h0).heap = h0 := by
  obtain ⟨gxOk, gyOk, ecOk⟩ := o
  cases gxOk <;> cases gyOk <;> cases ecOk <;>
    simp_all [key_from_sgx_ec256, Heap.allocBN, Heap.freeBN,
      Heap.allocEcKey, Heap.freeEcKey]

/-- Witness for C1 at the all-zero coordinate pair, which is off-curve. -/
theorem key_from_sgx_ec256_offcurve_rejects_witness :
    ((List.replicate 32 0 : List Nat).length = 32 ∧
     onCurveP256 (bn_lebin2bn (List.replicate 32 0))
       (bn_lebin2bn (List.replicate 32 0)) = false) ∧
    ((key_from_sgx_ec256 ⟨List.replicate 32 0, List.replicate 32 0⟩
        FromSgxOracle.allOk ⟨ErrorType.e_none, none⟩ Heap.init).ret = none ∧
     (key_from_sgx_ec256 ⟨List.replicate 32 0, List.replicate 32 0⟩
        FromSgxOracle.allOk ⟨ErrorType.e_none, none⟩ Heap.init).state.error_type =
       ErrorType.e_crypto ∧
     (key_from_sgx_ec256 ⟨List.replicate 32 0, List.replicate 32 0⟩
        FromSgxOracle.allOk ⟨ErrorType.e_none, none⟩ Heap.init).heap = Heap.init) :=
  ⟨⟨by decide, by decide⟩,
   key_from_sgx_ec256_offcurve_rejects _ FromSgxOracle.allOk _ _
     (by decide) (by decide) (by decide)⟩

/-- C2: for every valid P-256 point `(x, y)`, encoding each coordinate as a
32-byte little-endian buffer and passing them to `key_from_sgx_ec256` (with
the library calls succeeding) yields a key handle on P-256 whose affine
public-point coordinates are exactly `(x, y)`, with no error recorded. -/
theorem key_from_sgx_ec256_roundtrip (x y : Nat) (s0 : ErrorState) (h0 : Heap)
    (hcurve : onCurveP256 x y = true) :
    (key_from_sgx_ec256 ⟨leEncode x 32, leEncode y 32⟩
       FromSgxOracle.allOk s0 h0).ret =
      some { curve := NID_X9_62_prime256v1, pub := some (x, y) } ∧
    (key_from_sgx_ec256 ⟨leEncode x 32, leEncode y 32⟩
       FromSgxOracle.allOk s0 h0).state.error_type = ErrorType.e_none := by
  have hx : x < p256_p ∧ y < p256_p := by
    have h := hcurve
    simp only [onCurveP256, Bool.and_eq_true, decide_eq_true_eq] at h
    exact ⟨h.1.1, h.1.2⟩
  have hxe : bn_lebin2bn (leEncode x 32) = x :=
    bn_lebin2bn_leEncode 32 x (lt_of_lt_of_le hx.1 (by norm_num [p256_p]))
  have hye : bn_lebin2bn (leEncode y 32) = y :=
    bn_lebin2bn_leEncode 32 y (lt_of_lt_of_le hx.2 (by norm_num [p256_p]))
  simp [key_from_sgx_ec256, FromSgxOracle.allOk, hxe, hye, hcurve]

/-- Witness for C2 at the P-256 base point. -/
theorem key_from_sgx_ec256_roundtrip_witness :
    onCurveP256 p256_gx p256_gy = true ∧
    ((key_from_sgx_ec256 ⟨leEncode p256_gx 32, leEncode p256_gy 32⟩
        FromSgxOracle.allOk ⟨ErrorType.e_none, none⟩ Heap.init).ret =
       some { curve := NID_X9_62_prime256v1, pub := some (p256_gx, p256_gy) } ∧
     (key_from_sgx_ec256 ⟨leEncode p256_gx 32, leEncode p256_gy 32⟩
        FromSgxOracle.allOk ⟨ErrorType.e_none, none⟩ Heap.init).state.error_type =
       ErrorType.e_none) :=
  ⟨by decide,
   key_from_sgx_ec256_roundtrip p256_gx p256_gy _ _ (by decide)⟩

/-- Characterization of `key_from_sgx_ec256` error bookkeeping: the context
string `ep` is never written, the error kind is written exactly once iff the
call fails, and the kind reads `e_none` iff a key handle is returned. -/
theorem kfs_spec (k : SgxEc256Public) (o : FromSgxOracle)
    (s0 : ErrorState) (h0 : Heap) :
    (key_from_sgx_ec256 k o s0 h0).state.ep = s0.ep ∧
    (key_from_sgx_ec256 k o s0 h0).kindWrites =
      (if (key_from_sgx_ec256 k o s0 h0).ret.isSome then 0 else 1) ∧
    ((key_from_sgx_ec256 k o s0 h0).state.error_type = ErrorType.e_none ↔
      (key_from_sgx_ec256 k o s0 h0).ret.isSome = true) := by
  obtain ⟨gxOk, gyOk, ecOk⟩ := o
  by_cases hc : onCurveP256 (bn_lebin2bn k.gx) (bn_lebin2bn k.gy) = false <;>
    cases gxOk <;> cases gyOk <;> cases ecOk <;>
      simp_all [key_from_sgx_ec256]

/-- Characterization of `key_load_file` error bookkeeping: the error kind is
written exactly once iff the call fails and reads `e_none` iff it succeeds;
the context string is overwritten with the filename exactly when `fopen`
fails and is otherwise left alone. -/
theorem klf_spec (fn : String) (o : LoadOracle) (s0 : ErrorState)
    (h0 : Heap) (e0 : Nat) :
    (key_load_file fn o s0 h0 e0).kindWrites =
      (if (key_load_file fn o s0 h0 e0).ret = 1 then 0 else 1) ∧
    ((key_load_file fn o s0 h0 e0).state.error_type = ErrorType.e_none ↔
      (key_load_file fn o s0 h0 e0).ret = 1) ∧
    (key_load_file fn o s0 h0 e0).state.ep =
      (if o.openOk = true then s0.ep else some fn) := by
  obtain ⟨op, en, ct⟩ := o
  cases op <;> cases ct <;> simp [key_load_file]

/-- C3 counterexample: ErrorState is NOT fully reset at entry. A successful
`key_from_sgx_ec256` call entered with a stale context string returns with
that stale context still in place: only the kind is reset at entry, never
`ep`. -/
theorem error_state_context_not_reset :
    (key_from_sgx_ec256 ⟨leEncode p256_gx 32, leEncode p256_gy 32⟩
       FromSgxOracle.allOk ⟨ErrorType.e_system, some "stale"⟩ Heap.init).ret.isSome = true ∧
    (key_from_sgx_ec256 ⟨leEncode p256_gx 32, leEncode p256_gy 32⟩
       FromSgxOracle.allOk ⟨ErrorType.e_system, some "stale"⟩ Heap.init).state.ep =
      some "stale" := by
  constructor
  · decide
  · decide

/-- C3 amended: every public operation resets the error KIND to `e_none` at
entry and then writes the kind exactly once iff the operation fails (so the
kind reads `e_none` iff the operation succeeded); the context string is not
reset at entry — it is overwritten only by `key_load_file` on open failure
and otherwise retains whatever value it had before the call. -/
theorem error_state_reset_amended :
    (∀ (fn : String) (o : LoadOracle) (s0 : ErrorState) (h0 : Heap) (e0 : Nat),
      (key_load_file fn o s0 h0 e0).kindWrites =
        (if (key_load_file fn o s0 h0 e0).ret = 1 then 0 else 1) ∧
      ((key_load_file fn o s0 h0 e0).state.error_type = ErrorType.e_none ↔
        (key_load_file fn o s0 h0 e0).ret = 1) ∧
      (key_load_file fn o s0 h0 e0).state.ep =
        (if o.openOk = true then s0.ep else some fn)) ∧
    (∀ (k : SgxEc256Public) (o : FromSgxOracle) (s0 : ErrorState) (h0 : Heap),
      (key_from_sgx_ec256 k o s0 h0).kindWrites =
        (if (key_from_sgx_ec256 k o s0 h0).ret.isSome then 0 else 1) ∧
      ((key_from_sgx_ec256 k o s0 h0).state.error_type = ErrorType.e_none ↔
        (key_from_sgx_ec256 k o s0 h0).ret.isSome = true) ∧
      (key_from_sgx_ec256 k o s0 h0).state.ep = s0.ep) ∧
    (∀ (peer : EcKeyObj) (o : DeriveOracle) (s0 : ErrorState) (h0 : Heap),
      (key_shared_secret peer o s0 h0).kindWrites =
        (if (key_shared_secret peer o s0 h0).ret.isSome then 0 else 1) ∧
      ((key_shared_secret peer o s0 h0).state.error_type = ErrorType.e_none ↔
        (key_shared_secret peer o s0 h0).ret.isSome = true) ∧
      (key_shared_secret peer o s0 h0).state.ep = s0.ep) := by
  refine ⟨fun fn o s0 h0 e0 => klf_spec fn o s0 h0 e0,
          fun k o s0 h0 => ?_,
          fun peer o s0 h0 => ?_⟩
  · obtain ⟨hep, hkw, hiff⟩ := kfs_spec k o s0 h0
    exact ⟨hkw, hiff, hep⟩
  · obtain ⟨hep, hret, hkw, het, hheap, hslen⟩ := kss_spec peer o s0 h0
    cases hall : o.allCallsOk <;> simp_all

/-- C4 counterexample: `key_load_file` happily returns success with an EC key
on a curve other than P-256 (here NID 715, secp384r1) — it performs no curve
check at all. -/
theorem key_load_file_foreign_curve_accepted :
    (key_load_file "identity.pem" ⟨true, 0, PemContent.ecKey 715⟩
       ⟨ErrorType.e_none, none⟩ Heap.init 0).ret = 1 ∧
    (key_load_file "identity.pem" ⟨true, 0, PemContent.ecKey 715⟩
       ⟨ErrorType.e_none, none⟩ Heap.init 0).eckey =
      some { curve := 715, pub := none } ∧
    (715 : Nat) ≠ NID_X9_62_prime256v1 := by
  refine ⟨by decide, by decide, by decide⟩

/-- C4 amended: every key `key_from_sgx_ec256` creates is bound to P-256, but
`key_load_file` enforces no curve at all — whenever the PEM parses to an EC
key of ANY curve `c`, it returns success with a handle on curve `c`. -/
theorem curve_invariant_amended :
    (∀ (k : SgxEc256Public) (o : FromSgxOracle) (s0 : ErrorState) (h0 : Heap)
       (key : EcKeyObj),
      (key_from_sgx_ec256 k o s0 h0).ret = some key →
      key.curve = NID_X9_62_prime256v1) ∧
    (∀ (fn : String) (c : Nat) (s0 : ErrorState) (h0 : Heap) (e0 : Nat),
      (key_load_file fn ⟨true, 0, PemContent.ecKey c⟩ s0 h0 e0).ret = 1 ∧
      (key_load_file fn ⟨true, 0, PemContent.ecKey c⟩ s0 h0 e0).eckey =
        some { curve := c, pub := none }) := by
  constructor
  · intro k o s0 h0 key hret
    obtain ⟨gxOk, gyOk, ecOk⟩ := o
    by_cases hc : onCurveP256 (bn_lebin2bn k.gx) (bn_lebin2bn k.gy) = false <;>
      cases gxOk <;> cases gyOk <;> cases ecOk <;>
        simp_all [key_from_sgx_ec256]
    rw [← hret]
  · intro fn c s0 h0 e0
    simp [key_load_file]

/-- Witness for C4's amended claim: the base point yields a P-256 handle from
`key_from_sgx_ec256`, and a secp384r1 PEM file sails through
`key_load_file`. -/
theorem curve_invariant_amended_witness :
    ((key_from_sgx_ec256 ⟨leEncode p256_gx 32, leEncode p256_gy 32⟩
        FromSgxOracle.allOk ⟨ErrorType.e_none, none⟩ Heap.init).ret =
      some { curve := NID_X9_62_prime256v1, pub := some (p256_gx, p256_gy) }) ∧
    EcKeyObj.curve { curve := NID_X9_62_prime256v1, pub := some (p256_gx, p256_gy) } =
      NID_X9_62_prime256v1 ∧
    (key_load_file "k384.pem" ⟨true, 0, PemContent.ecKey 715⟩
       ⟨ErrorType.e_none, none⟩ Heap.init 0).ret = 1 :=
  ⟨by decide,
   curve_invariant_amended.1 ⟨leEncode p256_gx 32, leEncode p256_gy 32⟩
     FromSgxOracle.allOk ⟨ErrorType.e_none, none⟩ Heap.init _ (by decide),
   (curve_invariant_amended.2 "k384.pem" 715 ⟨ErrorType.e_none, none⟩
     Heap.init 0).1⟩

/-- C5: a failing open makes `key_load_file` return failure with kind
`e_system` and the path stored as the context, with no file handle ever
opened; and on every path the count of open file handles at return equals
the count at entry — whenever the open succeeds the handle is closed before
returning, parse failure included. -/
theorem key_load_file_no_fd_leak (fn : String) (o : LoadOracle)
    (s0 : ErrorState) (h0 : Heap) (e0 : Nat) :
    (key_load_file fn o s0 h0 e0).heap.file = h0.file ∧
    (o.openOk = false →
      (key_load_file fn o s0 h0 e0).ret = 0 ∧
      (key_load_file fn o s0 h0 e0).state.error_type = ErrorType.e_system ∧
      (key_load_file fn o s0 h0 e0).state.ep = some fn) := by
  obtain ⟨op, en, ct⟩ := o
  cases op <;> cases ct <;>
    simp [key_load_file, Heap.allocEvpPkey, Heap.openFile, Heap.closeFile,
      Heap.allocEcKey]

/-- Witness for C5: a concrete unopenable path. -/
theorem key_load_file_no_fd_leak_witness :
    ((⟨false, 2, PemContent.noKey⟩ : LoadOracle).openOk = false) ∧
    ((key_load_file "/no/such/key.pem" ⟨false, 2, PemContent.noKey⟩
        ⟨ErrorType.e_none, none⟩ Heap.init 0).ret = 0 ∧
     (key_load_file "/no/such/key.pem" ⟨false, 2, PemContent.noKey⟩
        ⟨ErrorType.e_none, none⟩ Heap.init 0).state.error_type = ErrorType.e_system ∧
     (key_load_file "/no/such/key.pem" ⟨false, 2, PemContent.noKey⟩
        ⟨ErrorType.e_none, none⟩ Heap.init 0).state.ep = some "/no/such/key.pem") :=
  ⟨rfl,
   (key_load_file_no_fd_leak "/no/such/key.pem" ⟨false, 2, PemContent.noKey⟩
     ⟨ErrorType.e_none, none⟩ Heap.init 0).2 rfl⟩

/-- C6: whenever `key_shared_secret` fails — at whichever of its fifteen
fallible steps — it returns no secret, records `e_crypto`, and the final heap
equals the entry heap: parameters, ephemeral key, peer-key wrapper, both
contexts, and any allocated secret buffer have all been released. -/
theorem key_shared_secret_failure_cleanup (peer : EcKeyObj) (o : DeriveOracle)
    (s0 : ErrorState) (h0 : Heap)
    (hfail : (key_shared_secret peer o s0 h0).ret = none) :
    (key_shared_secret peer o s0 h0).state.error_type = ErrorType.e_crypto ∧
    (key_shared_secret peer o s0 h0).heap = h0 := by
  obtain ⟨hep, hret, hkw, het, hheap, hslen⟩ := kss_spec peer o s0 h0
  cases hall : o.allCallsOk <;> simp_all

/-- Witness for C6: failure at the final derive, after the secret buffer was
allocated. -/
theorem key_shared_secret_failure_cleanup_witness :
    ((key_shared_secret ⟨NID_X9_62_prime256v1, none⟩
        ⟨true, true, true, true, true, true, true, true, true, true, true,
         true, true, true, false, []⟩ ⟨ErrorType.e_none, none⟩ Heap.init).ret =
      none) ∧
    ((key_shared_secret ⟨NID_X9_62_prime256v1, none⟩
        ⟨true, true, true, true, true, true, true, true, true, true, true,
         true, true, true, false, []⟩ ⟨ErrorType.e_none, none⟩ Heap.init).state.error_type =
      ErrorType.e_crypto ∧
     (key_shared_secret ⟨NID_X9_62_prime256v1, none⟩
        ⟨true, true, true, true, true, true, true, true, true, true, true,
         true, true, true, false, []⟩ ⟨ErrorType.e_none, none⟩ Heap.init).heap =
      Heap.init) :=
  ⟨by decide,
   key_shared_secret_failure_cleanup ⟨NID_X9_62_prime256v1, none⟩
     ⟨true, true, true, true, true, true, true, true, true, true, true,
      true, true, true, false, []⟩ ⟨ErrorType.e_none, none⟩ Heap.init (by decide)⟩

/-- C7: whenever `key_shared_secret` returns a buffer, the returned `*slen`
is the P-256 length the derivation primitive reported, the buffer holds
exactly that many bytes, and it is nonzero — never a zero-length or truncated
secret on success. -/
theorem key_shared_secret_success_length (peer : EcKeyObj) (o : DeriveOracle)
    (s0 : ErrorState) (h0 : Heap) (b : List Nat)
    (hsucc : (key_shared_secret peer o s0 h0).ret = some b) :
    (key_shared_secret peer o s0 h0).slen = p256_secret_len ∧
    b.length = (key_shared_secret peer o s0 h0).slen ∧
    (key_shared_secret peer o s0 h0).slen ≠ 0 := by
  obtain ⟨hep, hret, hkw, het, hheap, hslen⟩ := kss_spec peer o s0 h0
  cases hall : o.allCallsOk
  · simp_all
  · have hl : o.lenQueryReached = true := by
      have h := hall
      simp only [DeriveOracle.allCallsOk, Bool.and_eq_true] at h
      exact h.1.1
    rw [hall] at hret
    simp only [if_pos] at hret
    rw [hsucc] at hret
    have hb : b = derivedSecret o := Option.some.inj hret
    rw [hslen, hl]
    exact ⟨by simp, by simp [hb, derivedSecret_length], by simp [p256_secret_len]⟩

/-- Witness for C7: a fully successful derivation. -/
theorem key_shared_secret_success_length_witness :
    ((key_shared_secret ⟨NID_X9_62_prime256v1, none⟩
        (DeriveOracle.allOk [7, 7, 7]) ⟨ErrorType.e_none, none⟩ Heap.init).ret =
      some (derivedSecret (DeriveOracle.allOk [7, 7, 7]))) ∧
    ((key_shared_secret ⟨NID_X9_62_prime256v1, none⟩
        (DeriveOracle.allOk [7, 7, 7]) ⟨ErrorType.e_none, none⟩ Heap.init).slen =
      p256_secret_len ∧
     (derivedSecret (DeriveOracle.allOk [7, 7, 7])).length =
      (key_shared_secret ⟨NID_X9_62_prime256v1, none⟩
        (DeriveOracle.allOk [7, 7, 7]) ⟨ErrorType.e_none, none⟩ Heap.init).slen ∧
     (key_shared_secret ⟨NID_X9_62_prime256v1, none⟩
        (DeriveOracle.allOk [7, 7, 7]) ⟨ErrorType.e_none, none⟩ Heap.init).slen ≠ 0) :=
  ⟨by decide,
   key_shared_secret_success_length ⟨NID_X9_62_prime256v1, none⟩
     (DeriveOracle.allOk [7, 7, 7]) ⟨ErrorType.e_none, none⟩ Heap.init
     (derivedSecret (DeriveOracle.allOk [7, 7, 7])) (by decide)⟩

/-- C9: the system-error report is NOT fully captured at failure time. A
failing `key_load_file` stores only the filename; `key_perror` renders the
message from the errno current AT REPORT TIME, so an intervening call that
changes errno (here from 2 = ENOENT to 13 = EACCES) changes what is
reported for the very same recorded failure. -/
theorem key_perror_reads_report_time_errno :
    (key_load_file "/nonexistent/key.pem" ⟨false, 2, PemContent.noKey⟩
       ⟨ErrorType.e_none, none⟩ Heap.init 0).ret = 0 ∧
    (key_load_file "/nonexistent/key.pem" ⟨false, 2, PemContent.noKey⟩
       ⟨ErrorType.e_none, none⟩ Heap.init 0).state.error_type = ErrorType.e_system ∧
    (key_load_file "/nonexistent/key.pem" ⟨false, 2, PemContent.noKey⟩
       ⟨ErrorType.e_none, none⟩ Heap.init 0).errno = 2 ∧
    key_perror "client"
      (key_load_file "/nonexistent/key.pem" ⟨false, 2, PemContent.noKey⟩
        ⟨ErrorType.e_none, none⟩ Heap.init 0).state 2 ≠
    key_perror "client"
      (key_load_file "/nonexistent/key.pem" ⟨false, 2, PemContent.noKey⟩
        ⟨ErrorType.e_none, none⟩ Heap.init 0).state 13 := by
  refine ⟨by decide, by decide, by decide, by decide⟩

/-- C10: `*slen` is zeroed at entry, but when the failure comes after a
successful length query — at the buffer allocation or the final derivation —
`key_shared_secret` returns NULL while `*slen` still holds the queried
nonzero length: the NULL return, not `*slen`, signals failure. -/
theorem key_shared_secret_failure_slen (peer : EcKeyObj) (o : DeriveOracle)
    (s0 : ErrorState) (h0 : Heap)
    (hlen : o.lenQueryReached = true)
    (hfail : o.mallocOk = false ∨ o.deriveOk = false) :
    (key_shared_secret peer o s0 h0).ret = none ∧
    (key_shared_secret peer o s0 h0).slen = p256_secret_len ∧
    p256_secret_len ≠ 0 := by
  obtain ⟨hep, hret, hkw, het, hheap, hslen⟩ := kss_spec peer o s0 h0
  have hall : o.allCallsOk = false := by
    cases hfail with
    | inl h => simp [DeriveOracle.allCallsOk, h]
    | inr h => simp [DeriveOracle.allCallsOk, h]
  rw [hall] at hret
  simp only [Bool.false_eq_true, if_false] at hret
  exact ⟨hret, by rw [hslen, hlen]; simp, by simp [p256_secret_len]⟩

/-- Witness for C10: allocation failure right after a successful length
query. -/
theorem key_shared_secret_failure_slen_witness :
    ((⟨true, true, true, true, true, true, true, true, true, true, true,
       true, true, false, true, []⟩ : DeriveOracle).lenQueryReached = true ∧
     ((⟨true, true, true, true, true, true, true, true, true, true, true,
        true, true, false, true, []⟩ : DeriveOracle).mallocOk = false ∨
      (⟨true, true, true, true, true, true, true, true, true, true, true,
        true, true, false, true, []⟩ : DeriveOracle).deriveOk = false)) ∧
    ((key_shared_secret ⟨NID_X9_62_prime256v1, none⟩
        ⟨true, true, true, true, true, true, true, true, true, true, true,
         true, true, false, true, []⟩ ⟨ErrorType.e_none, none⟩ Heap.init).ret = none ∧
     (key_shared_secret ⟨NID_X9_62_prime256v1, none⟩
        ⟨true, true, true, true, true, true, true, true, true, true, true,
         true, true, false, true, []⟩ ⟨ErrorType.e_none, none⟩ Heap.init).slen =
       p256_secret_len ∧
     p256_secret_len ≠ 0) :=
  ⟨⟨by decide, Or.inl rfl⟩,
   key_shared_secret_failure_slen ⟨NID_X9_62_prime256v1, none⟩
     ⟨true, true, true, true, true, true, true, true, true, true, true,
      true, true, false, true, []⟩ ⟨ErrorType.e_none, none⟩ Heap.init
     (by decide) (Or.inl rfl)⟩
